import Mathlib

/-!
Verification of lesiw/testdetect.

The repository snapshot contains the README and the test file `main_test.go`;
the generator's own source (`run` and the two emitted templates) is absent, so
the Generator and the generated artifacts are modelled from the spec, the
README and the expectations encoded in the tests.

The model covers:
* the Go selector-rule resolution the detection construct rides on
  (`MethodDef`, `resolve`);
* the two generated artifacts and the compilation units of the production and
  test build variants (`Decl`, `productionArtifact`, `testArtifact`,
  `compiledDecls`);
* the startup consistency validator and program startup (`validator`,
  `buildAndRun`);
* dead-code elimination of literals gated on the detector (`CallerStmt`,
  `buildStmts`, `buildBinary`);
* the Generator's file-creation behaviour (`NamedFile`, `run`);
* statement coverage of the generated lines (`GenStmt`, `coverage`).
-/

namespace Testdetect

/-- Go boolean formatting, as produced by the %v verb. -/
def goBool : Bool → String
  | true => "true"
  | false => "false"

/-- A definition of the accessor method `Testing` visible to a compilation
unit: the embedding depth of the receiver holding it (0 = declared directly on
`testingDetector`), and the literal it returns. -/
structure MethodDef where
  depth : Nat
  ret : Bool
  deriving DecidableEq

/-- The smallest receiver depth among a set of accessor definitions. -/
def minDepth : List MethodDef → Option Nat
  | [] => none
  | d :: ds => some (ds.foldl (fun a m => Nat.min a m.depth) d.depth)

/-- Go selector resolution (spec §4.2, README "selector rules"): the
definition at the shallowest embedding depth wins; two definitions at the
same shallowest depth are a multiple-definition compile error (`none`). -/
def resolve (defs : List MethodDef) : Option Bool :=
  match minDepth defs with
  | none => none
  | some d =>
    match defs.filter (fun m => m.depth == d) with
    | [m] => some m.ret
    | _ => none

/-- Modelled from the spec: the production artifact's accessor definition —
attached to the marker type through an embedded field (depth 1) and returning
literal `false`. -/
def prodDef : MethodDef := ⟨1, false⟩

/-- Modelled from the spec: the test artifact's overriding accessor —
declared directly on the marker type (depth 0) in the test compilation unit
and returning literal `true`, so selector resolution prefers it. -/
def testDef : MethodDef := ⟨0, true⟩

/-- A top-level declaration of a generated (or tampering) source file. -/
inductive Decl where
  | markerType
  | accessor (d : MethodDef)
  | validatorInit
  | padding
  deriving DecidableEq

/-- Modelled from the README and TestTamperDetection: the declarations of
`testing_detector.go` — the marker type, the depth-1 accessor returning
`false`, the `init` consistency validator, and the coverage padding. The
README places the `init()` check in `testing_detector.go`, and
TestTamperDetection requires a plain `go run .` (no test files compiled) to
panic, so the validator is part of the production artifact. -/
def productionArtifact : List Decl :=
  [Decl.markerType, Decl.accessor prodDef, Decl.validatorInit, Decl.padding]

/-- Modelled from the spec and README: the declarations of
`testing_detector_test.go` — only the overriding accessor. -/
def testArtifact : List Decl := [Decl.accessor testDef]

/-- The declarations compiled into a build of the package: the production
artifact always, the test artifact only in a test build, plus any further
declarations contributed by the caller's own files. -/
def compiledDecls (isTestBuild : Bool) (callerDecls : List Decl) : List Decl :=
  productionArtifact ++ (if isTestBuild then testArtifact else []) ++ callerDecls

/-- The accessor definitions among a unit's declarations. -/
def accessorDefs (ds : List Decl) : List MethodDef :=
  ds.filterMap fun d =>
    match d with
    | Decl.accessor m => some m
    | _ => none

/-- The host toolchain's authoritative test-mode signal, `testing.Testing()`:
true exactly in a test build. -/
def hostSignal (isTestBuild : Bool) : Bool := isTestBuild

/-- The structured message carried by the validator's fatal failure. -/
def validatorMsg (got want : Bool) : String :=
  "bad testingDetector state: got " ++ goBool got ++ ", want " ++ goBool want

/-- Modelled from the spec (§4.3): the startup consistency check — compares
the construct's resolved value against the host signal; equal means no
observable effect, unequal aborts with the structured message. -/
def validator (got want : Bool) : Except String Unit :=
  if got = want then Except.ok () else Except.error (validatorMsg got want)

/-- The observable outcome of compiling and starting a build of the package. -/
inductive BuildOutcome where
  | compileError
  | panicked (msg : String)
  | ran (testing : Bool)
  deriving DecidableEq

/-- Compile a build variant of the package and run its startup: selector
resolution of the accessor (a clash is a compile error); then, whenever the
unit contains the validator `init`, the consistency check, which panics on a
mismatch; otherwise the program runs and the accessor yields the resolved
value. -/
def buildAndRun (isTestBuild : Bool) (callerDecls : List Decl) : BuildOutcome :=
  match resolve (accessorDefs (compiledDecls isTestBuild callerDecls)) with
  | none => BuildOutcome.compileError
  | some v =>
    if Decl.validatorInit ∈ compiledDecls isTestBuild callerDecls then
      match validator v (hostSignal isTestBuild) with
      | Except.error m => BuildOutcome.panicked m
      | Except.ok () => BuildOutcome.ran v
    else BuildOutcome.ran v

/-- How a caller statement printing a literal is guarded: unconditional, only
under `t.Testing()`, or only under `!t.Testing()` (the `else` branch). -/
inductive Guard where
  | always
  | whenTesting
  | whenNotTesting
  deriving DecidableEq

/-- A statement of the caller program: a guard and the string literal the
statement references. -/
structure CallerStmt where
  guard : Guard
  literal : String
  deriving DecidableEq

/-- Whether a statement is live given the statically resolved accessor value
`v`: a constant-propagating compiler knows a `whenTesting` branch is dead when
`v = false` and a `whenNotTesting` branch is dead when `v = true`. -/
def stmtLive (v : Bool) (s : CallerStmt) : Bool :=
  match s.guard with
  | Guard.always => true
  | Guard.whenTesting => v
  | Guard.whenNotTesting => !v

/-- The caller statements compiled into the binary of a build variant.
`dce = true` models a dead-code-eliminating compiler (gc, tinygo): statements
whose guard is statically false under the resolved accessor value are
removed. `dce = false` models a compiler without this optimisation (gccgo,
per the README): every statement stays. -/
def buildStmts (dce isTestBuild : Bool) (prog : List CallerStmt) :
    List CallerStmt :=
  match resolve (accessorDefs (compiledDecls isTestBuild [])) with
  | some v => prog.filter (fun s => !dce || stmtLive v s)
  | none => []

/-- The string literals present in the produced binary's data section. -/
def buildBinary (dce isTestBuild : Bool) (prog : List CallerStmt) :
    List String :=
  (buildStmts dce isTestBuild prog).map (fun s => s.literal)

/-- The caller program written by TestSimple: a branch per accessor value and
an unconditional print. -/
def simpleProgram : List CallerStmt :=
  [⟨Guard.whenTesting, "t.Testing()=true"⟩,
   ⟨Guard.whenNotTesting, "t.Testing()=false"⟩,
   ⟨Guard.always, "Hello world!"⟩]

/-- A Go source file of the target directory: its filename, the package name
of its package clause, whether it is a `_test.go` file, and its
declarations. -/
structure NamedFile where
  name : String
  pkg : String
  test : Bool
  decls : List Decl
  deriving DecidableEq

/-- The two filenames the Generator emits (README: "This produces two files,
testing_detector.go and testing_detector_test.go"). -/
def targetNames : List String :=
  ["testing_detector.go", "testing_detector_test.go"]

/-- The generated production file, for package `pkg`. -/
def prodFile (pkg : String) : NamedFile :=
  ⟨"testing_detector.go", pkg, false, productionArtifact⟩

/-- The generated test file, for package `pkg`. -/
def testFile (pkg : String) : NamedFile :=
  ⟨"testing_detector_test.go", pkg, true, testArtifact⟩

/-- Modelled from the spec: the package name the Generator infers from the
target directory's existing sources — from the first non-test source when one
exists, otherwise from the first source; `none` when there is no source at
all to infer a package from (no valid package at the target). -/
def inferPkg (dir : List NamedFile) : Option String :=
  match (dir.filter (fun f => !f.test)).head? with
  | some f => some f.pkg
  | none => dir.head?.map (fun f => f.pkg)

/-- The Generator's failure taxonomy (spec §7). -/
inductive GenError where
  | TargetMissing
  | FileExists
  deriving DecidableEq

/-- Modelled from the spec: the Generator `run`. Its source is not in the
repository snapshot; per spec §4.1/§7 it infers the target package from the
directory's existing sources (failing with `TargetMissing` when no package is
found), refuses to overwrite when either target filename is already present
(`FileExists`, all-or-nothing: the directory is left unchanged), and
otherwise appends exactly the two generated files. The result pairs the
reported error, if any, with the directory contents after the run. -/
def run (dir : List NamedFile) : Option GenError × List NamedFile :=
  match inferPkg dir with
  | none => (some GenError.TargetMissing, dir)
  | some pkg =>
    if dir.any (fun f => targetNames.contains f.name) then
      (some GenError.FileExists, dir)
    else
      (none, dir ++ [prodFile pkg, testFile pkg])

/-- Coverage-counted statements contributed by the generated code: Go's
coverage tool instruments only the non-test files, so these are the
statements of `testing_detector.go`. -/
inductive GenStmt where
  | accessorBody
  | validatorCompare
  | paddingStmt
  deriving DecidableEq

/-- The coverage-counted statements of the production artifact. -/
def genStatements : List GenStmt :=
  [GenStmt.accessorBody, GenStmt.validatorCompare, GenStmt.paddingStmt]

/-- Modelled from the spec: whether a normal test run executes each generated
statement — the validator's comparison runs from `init` at startup, the
padding statements run with it ("no-op padding statements solely to keep
every generated line exercised by some normal run", §4.1), and the padding
invokes the otherwise-shadowed production accessor body. -/
def genExecuted : GenStmt → Bool
  | GenStmt.accessorBody => true
  | GenStmt.validatorCompare => true
  | GenStmt.paddingStmt => true

/-- Statement coverage (in percent) that `go test -cover` reports for a
caller package `prog` augmented with the generated files: covered statements
are the caller statements live in the test run (where the accessor resolves
to `true`) together with the generated statements the test run executes. -/
def coverage (prog : List CallerStmt) : Nat :=
  ((prog.filter (stmtLive true)).length +
      (genStatements.filter genExecuted).length) * 100 /
    (prog.length + genStatements.length)

/-- The caller program written by TestCodeCoverage: a test-gated print and an
unconditional print, no `else` branch. -/
def coverageProgram : List CallerStmt :=
  [⟨Guard.whenTesting, "t.Testing()=true"⟩,
   ⟨Guard.always, "Hello world!"⟩]

/-- A named symbol declared by the generated artifacts, for the lint model. -/
inductive Sym where
  | marker
  | prodAccessor
  | testAccessor
  | validatorSym
  | paddingSym
  deriving DecidableEq

/-- The symbols the generated artifacts declare in each build variant. -/
def declaredSyms (isTestBuild : Bool) : List Sym :=
  [Sym.marker, Sym.prodAccessor, Sym.validatorSym, Sym.paddingSym] ++
    (if isTestBuild then [Sym.testAccessor] else [])

/-- Modelled from the spec: the symbols referenced within each build variant —
every accessor and the validator name the marker type, the validator's
selector call resolves to the variant's winning accessor, the validator
executes the padding, and the padding invokes the production accessor body. -/
def usedSyms (isTestBuild : Bool) : List Sym :=
  [Sym.marker, Sym.paddingSym, Sym.prodAccessor] ++
    (if isTestBuild then [Sym.testAccessor] else [Sym.prodAccessor])

/-- Symbols a Go linter never reports as unused even without a textual
reference: `init` functions are invoked by the runtime. -/
def autoUsed : Sym → Bool
  | Sym.validatorSym => true
  | _ => false

/-- The library file written by TestImport into the `lib` subdirectory: a
non-test source whose package clause is `lib`. -/
def libFile : NamedFile := ⟨"lib.go", "lib", false, []⟩

/-- A plain caller source file for package `main`, as in the tests. -/
def mainFile : NamedFile := ⟨"main.go", "main", false, []⟩

/-- `lib.Greet` from TestImport: `fmt.Sprintf("Hello, %s!", s)`. -/
def Greet (s : String) : String := "Hello, " ++ s ++ "!"

/-- The validator `init` is part of the production artifact and hence of
every compiled unit, whatever the build variant and caller files. -/
theorem validatorInit_mem (b : Bool) (caller : List Decl) :
    Decl.validatorInit ∈ compiledDecls b caller := by
  unfold compiledDecls productionArtifact
  simp

/-- A nonempty target directory always yields an inferred package name. -/
theorem inferPkg_ne_none (dir : List NamedFile) (h : dir ≠ []) :
    inferPkg dir ≠ none := by
  unfold inferPkg
  cases hh : (dir.filter (fun f => !f.test)).head? with
  | some f => simp
  | none =>
    cases dir with
    | nil => exact absurd rfl h
    | cons f fs => simp

/-- C1 counterexample: the claim quantifies over every production build, but
under a compiler without dead-code elimination (`dce = false`, the README's
gccgo case) the accessor still resolves to `false` while the test-only
literal remains in the produced binary. -/
theorem tdC1_counterexample :
    resolve (accessorDefs (compiledDecls false [])) = some false ∧
    "t.Testing()=true" ∈ buildBinary false false simpleProgram := by decide

/-- C1 (amended): in every production build the accessor resolves to literal
`false`; under a dead-code-eliminating compiler (`dce = true`, the gc case
exercised by TestSimple) a caller statement is compiled into the binary
exactly when its guard is not test-only, so on TestSimple's program the
binary holds exactly the production-only and unconditional literals. -/
theorem tdC1 (prog : List CallerStmt) (s : CallerStmt) :
    resolve (accessorDefs (compiledDecls false [])) = some false ∧
    (s ∈ buildStmts true false prog ↔
      s ∈ prog ∧ s.guard ≠ Guard.whenTesting) ∧
    buildBinary true false simpleProgram =
      ["t.Testing()=false", "Hello world!"] := by
  refine ⟨rfl, ?_, by decide⟩
  have hb : buildStmts true false prog =
      prog.filter (fun t => !true || stmtLive false t) := rfl
  rw [hb, List.mem_filter]
  obtain ⟨g, lit⟩ := s
  cases g <;> simp [stmtLive]

/-- C2 counterexample: in the test build the accessor resolves to `true`, and
under the dead-code-eliminating compiler the production-only literal is NOT
in the test binary — TestSimple itself asserts its absence — contradicting
the claim that both branches' literals appear. -/
theorem tdC2_counterexample :
    resolve (accessorDefs (compiledDecls true [])) = some true ∧
    "t.Testing()=false" ∉ buildBinary true true simpleProgram := by decide

/-- C2 (amended): in every test build the accessor resolves to literal
`true`; under a dead-code-eliminating compiler a caller statement is
compiled into the test binary exactly when its guard is not production-only,
so on TestSimple's program the test binary holds exactly the test-only and
unconditional literals. -/
theorem tdC2 (prog : List CallerStmt) (s : CallerStmt) :
    resolve (accessorDefs (compiledDecls true [])) = some true ∧
    (s ∈ buildStmts true true prog ↔
      s ∈ prog ∧ s.guard ≠ Guard.whenNotTesting) ∧
    buildBinary true true simpleProgram =
      ["t.Testing()=true", "Hello world!"] := by
  refine ⟨rfl, ?_, by decide⟩
  have hb : buildStmts true true prog =
      prog.filter (fun t => !true || stmtLive true t) := rfl
  rw [hb, List.mem_filter]
  obtain ⟨g, lit⟩ := s
  cases g <;> simp [stmtLive]

/-- C3: whenever the accessor resolves, startup compares the resolved value
with the host signal: equal values have no observable effect (the program
just runs), unequal values abort with the structured message
"bad testingDetector state: got [construct], want [signal]". -/
theorem tdC3 (isTestBuild : Bool) (caller : List Decl) (v : Bool)
    (hres : resolve (accessorDefs (compiledDecls isTestBuild caller)) =
      some v) :
    buildAndRun isTestBuild caller =
      if v = hostSignal isTestBuild then BuildOutcome.ran v
      else BuildOutcome.panicked (validatorMsg v (hostSignal isTestBuild)) := by
  unfold buildAndRun
  split
  next heq =>
    rw [hres] at heq
    simp at heq
  next v2 heq =>
    rw [hres] at heq
    injection heq with hv
    subst hv
    rw [if_pos (validatorInit_mem isTestBuild caller)]
    unfold validator
    by_cases h : v = hostSignal isTestBuild <;> simp [h]

/-- C3 witness: a production build with a caller-supplied depth-0 accessor
returning `false` resolves to `false`, agrees with the host signal, and the
check has no observable effect. -/
theorem tdC3_witness :
    buildAndRun false [Decl.accessor ⟨0, false⟩] = BuildOutcome.ran false := by
  have h := tdC3 false [Decl.accessor ⟨0, false⟩] false (by decide)
  rw [h]; decide

/-- C4 counterexample: the validator declaration is part of the production
compilation unit, and a production (non-test) execution does perform the
detector-vs-signal comparison — the tampered production build panics with
the validator's message, exactly what TestTamperDetection relies on. -/
theorem tdC4_counterexample :
    Decl.validatorInit ∈ compiledDecls false [] ∧
    buildAndRun false [Decl.accessor ⟨0, true⟩] =
      BuildOutcome.panicked
        "bad testingDetector state: got true, want false" := by decide

/-- C4 (amended): the validator is emitted into the production artifact
`testing_detector.go`, so it is present in every compiled unit of every
build variant and its comparison runs at startup of production binaries as
well; in untampered builds it has no observable effect. -/
theorem tdC4 :
    (∀ (b : Bool) (caller : List Decl),
      Decl.validatorInit ∈ compiledDecls b caller) ∧
    Decl.validatorInit ∈ productionArtifact ∧
    Decl.validatorInit ∉ testArtifact ∧
    buildAndRun false [] = BuildOutcome.ran false ∧
    buildAndRun true [] = BuildOutcome.ran true := by
  exact ⟨fun b caller => validatorInit_mem b caller, by decide, by decide,
    by decide, by decide⟩

/-- C5: whenever either generated filename is already present in the target
directory, the Generator fails with `FileExists` and the directory is left
exactly as it was — no file overwritten, none created. -/
theorem tdC5 (dir : List NamedFile)
    (h : dir.any (fun f => targetNames.contains f.name) = true) :
    run dir = (some GenError.FileExists, dir) := by
  have hne : dir ≠ [] := by
    rintro rfl
    simp at h
  unfold run
  cases hp : inferPkg dir with
  | none => exact absurd hp (inferPkg_ne_none dir hne)
  | some pkg =>
    show (if (dir.any fun f => targetNames.contains f.name) = true
        then (some GenError.FileExists, dir)
        else (none, dir ++ [prodFile pkg, testFile pkg])) =
      (some GenError.FileExists, dir)
    rw [if_pos h]

/-- C5 witness: re-running against a directory already holding the generated
production file fails with `FileExists` and changes nothing. -/
theorem tdC5_witness :
    run [prodFile "main"] = (some GenError.FileExists, [prodFile "main"]) :=
  tdC5 [prodFile "main"] (by decide)

/-- C6: when the target directory offers no source to infer a package from
(no valid package at the target), the Generator fails with `TargetMissing`
and writes no files — the directory is returned unchanged. -/
theorem tdC6 (dir : List NamedFile) (h : inferPkg dir = none) :
    run dir = (some GenError.TargetMissing, dir) := by
  unfold run
  rw [h]

/-- C6 witness: the empty target directory fails with `TargetMissing` and no
file is written. -/
theorem tdC6_witness : run [] = (some GenError.TargetMissing, []) :=
  tdC6 [] rfl

/-- C7 counterexample: on a successful run the startup validator declaration
is in the emitted production artifact `testing_detector.go` and NOT in the
test artifact `testing_detector_test.go`, contrary to the claim's placement
of the Validator in the test artifact. -/
theorem tdC7_counterexample :
    run [mainFile] = (none, [mainFile, prodFile "main", testFile "main"]) ∧
    Decl.validatorInit ∉ (testFile "main").decls ∧
    Decl.validatorInit ∈ (prodFile "main").decls := by decide

/-- C7 (amended): every successful run appends exactly the two files
`testing_detector.go` and `testing_detector_test.go`; the production
artifact defines the marker type, the accessor returning literal `false`,
the startup Validator, and the coverage padding, while the test artifact
defines only the overriding accessor returning literal `true`. -/
theorem tdC7 (dir dirAfter : List NamedFile)
    (h : run dir = (none, dirAfter)) :
    ∃ pkg, dirAfter = dir ++ [prodFile pkg, testFile pkg] ∧
      (prodFile pkg).name = "testing_detector.go" ∧
      (testFile pkg).name = "testing_detector_test.go" ∧
      (prodFile pkg).decls =
        [Decl.markerType, Decl.accessor prodDef, Decl.validatorInit,
          Decl.padding] ∧
      (testFile pkg).decls = [Decl.accessor testDef] := by
  unfold run at h
  cases hp : inferPkg dir with
  | none =>
    rw [hp] at h
    exact absurd h (by simp)
  | some pkg =>
    rw [hp] at h
    replace h : (if (dir.any fun f => targetNames.contains f.name) = true
        then (some GenError.FileExists, dir)
        else (none, dir ++ [prodFile pkg, testFile pkg])) =
      ((none : Option GenError), dirAfter) := h
    by_cases hc : (dir.any fun f => targetNames.contains f.name) = true
    · rw [if_pos hc] at h
      simp at h
    · rw [if_neg hc] at h
      refine ⟨pkg, ?_, rfl, rfl, rfl, rfl⟩
      exact (Prod.mk.injEq _ _ _ _ ▸ h).2.symm

/-- C7 witness: generating into TestImport's `lib` directory appends exactly
the two artifacts with the stated contents. -/
theorem tdC7_witness :
    ∃ pkg, [libFile, prodFile "lib", testFile "lib"] =
        [libFile] ++ [prodFile pkg, testFile pkg] ∧
      (prodFile pkg).name = "testing_detector.go" ∧
      (testFile pkg).name = "testing_detector_test.go" ∧
      (prodFile pkg).decls =
        [Decl.markerType, Decl.accessor prodDef, Decl.validatorInit,
          Decl.padding] ∧
      (testFile pkg).decls = [Decl.accessor testDef] :=
  tdC7 [libFile] [libFile, prodFile "lib", testFile "lib"] (by decide)

/-- C8: for a caller package whose statements are unconditional or gated
behind `marker.isTest()` (no production-only branch), the test run covers
every caller statement and every generated statement, so `go test -cover`
reports 100% of statements. -/
theorem tdC8 (prog : List CallerStmt)
    (h : ∀ s ∈ prog, s.guard ≠ Guard.whenNotTesting) :
    coverage prog = 100 := by
  have hall : prog.filter (stmtLive true) = prog := by
    apply List.filter_eq_self.mpr
    intro a ha
    have hg := h a ha
    obtain ⟨g, lit⟩ := a
    cases g <;> simp_all [stmtLive]
  unfold coverage
  rw [hall]
  have hgen : (genStatements.filter genExecuted).length =
      genStatements.length := by decide
  rw [hgen]
  have hpos : 0 < prog.length + genStatements.length := by
    have : genStatements.length = 3 := by decide
    omega
  rw [Nat.mul_comm]
  exact Nat.mul_div_cancel 100 hpos

/-- C8 witness: TestCodeCoverage's caller program reports 100% statement
coverage. -/
theorem tdC8_witness : coverage coverageProgram = 100 :=
  tdC8 coverageProgram (by decide)

/-- C9: in both build variants the emitted artifacts compile — selector
resolution of the accessor is well-defined and unambiguous — and every
symbol they declare is referenced within that variant or is auto-invoked
(the `init` validator), so standard linting reports no unused symbol. -/
theorem tdC9 :
    ∀ b : Bool,
      (resolve (accessorDefs (compiledDecls b []))).isSome = true ∧
      ∀ s ∈ declaredSyms b, s ∈ usedSyms b ∨ autoUsed s = true := by decide

/-- C10: run in a subdirectory package (TestImport's `lib`, whose go.mod
lives in the parent) whose only source is a non-test file, the Generator
succeeds; the two generated files adopt the subpackage name `lib`; both
build variants of the resulting package resolve the accessor, so the
enclosing module still builds and `lib.Greet` produces the expected
greeting. -/
theorem tdC10 :
    run [libFile] = (none, [libFile, prodFile "lib", testFile "lib"]) ∧
    (prodFile "lib").pkg = "lib" ∧
    (testFile "lib").pkg = "lib" ∧
    (resolve (accessorDefs (compiledDecls false []))).isSome = true ∧
    (resolve (accessorDefs (compiledDecls true []))).isSome = true ∧
    Greet "world" = "Hello, world!" := by decide

end Testdetect
